import Mathlib

/-!
Verification of the algorithmic core of the DiBek systems MVP backend:
the Kazakhstan BIN validator, the VAT calculator, the document number
generator and the order-to-document assembly, shallowly embedded from
`src/core/services.py` (with the document-type enumeration from
`src/core/models.py`).

Conventions of the embedding:
* Python strings are Lean `String`s (lists of Unicode code points).
* Python `None` for an optional argument is `Option.none`.
* A Python function that can raise is embedded in `Except PyError`.
* Monetary values (Python binary floats in the source) are embedded as
  exact rationals `ℚ`; `round(x, 2)` is round-half-to-even at two decimal
  places, the rounding mode documented for the source.
* Database / clock collaborators (`Company.objects.first()`, the
  `BusinessDocument` count query, `datetime.now()`) are passed in as
  explicit arguments, so each function is the pure function of the source
  given its collaborators' answers.
-/

/-- Errors the embedded Python code can raise.  `valueError` is what
`int(ch)` raises on a character that is not a Unicode decimal digit. -/
inductive PyError where
  | valueError
deriving DecidableEq

/-- Python `str.strip()` whitespace test, for the ASCII whitespace
characters (space, tab, newline, carriage return, vertical tab, form
feed).  The source only ever strips these; the full Unicode white-space
set is not exercised by any input considered here. -/
def pyIsSpace (c : Char) : Bool :=
  c == ' ' || c == '\t' || c == '\n' || c == '\r' || c.toNat == 11 || c.toNat == 12

/-- Python `str.strip()`: drop leading and trailing whitespace. -/
def pyStrip (cs : List Char) : List Char :=
  ((cs.dropWhile pyIsSpace).reverse.dropWhile pyIsSpace).reverse

/-- Python `str.isdigit()` on a single character: true for characters of
Unicode numeric type Digit or Decimal.  Modelled here on the fragment of
the Unicode table exercised in this development: the ASCII digits
U+0030..U+0039, the superscripts U+00B2, U+00B3, U+00B9 (numeric type
Digit but not Decimal), and the Arabic-Indic decimal digits
U+0660..U+0669. -/
def pyIsDigit (c : Char) : Bool :=
  let n := c.toNat
  decide ((48 ≤ n ∧ n ≤ 57) ∨ n = 0xB2 ∨ n = 0xB3 ∨ n = 0xB9 ∨ (0x660 ≤ n ∧ n ≤ 0x669))

/-- Python `int(ch)` on a one-character string: the digit value when the
character is a Unicode decimal digit (category Nd; here the ASCII and
Arabic-Indic decimal digits), and `none` (a `ValueError`) otherwise —
in particular on the superscript digits, which `str.isdigit` accepts. -/
def pyDecimalDigit (c : Char) : Option Nat :=
  let n := c.toNat
  if 48 ≤ n ∧ n ≤ 57 then some (n - 48)
  else if 0x660 ≤ n ∧ n ≤ 0x669 then some (n - 0x660)
  else none

/-- `primary_weights` of `validate_bin` (src/core/services.py line 24). -/
def primaryWeights : List Nat := [1, 2, 3, 4, 5, 6, 7, 8, 9, 10, 11]

/-- `secondary_weights` of `validate_bin` (src/core/services.py line 25). -/
def secondaryWeights : List Nat := [3, 4, 5, 6, 7, 8, 9, 10, 11, 1, 2]

/-- `sum(d * w for d, w in zip(ds, ws))` (src/core/services.py lines 27, 31-33). -/
def weightedSum (ds ws : List Nat) : Nat :=
  (List.zipWith (fun a b => a * b) ds ws).sum

/-- The checksum comparison of `validate_bin` on the already-converted
digit list (src/core/services.py lines 24-38): primary weighted sum mod
11; on 10, fall back to the secondary weights; if that is again 10 the
BIN is invalid, otherwise compare with the control digit `digits[11]`
(the guard of line 19 guarantees the list has 12 entries, so `getD` is
exact). -/
def validateDigits (digits : List Nat) : Bool :=
  let checksum := weightedSum (digits.take 11) primaryWeights % 11
  if checksum = 10 then
    let checksum2 := weightedSum (digits.take 11) secondaryWeights % 11
    if checksum2 = 10 then false
    else decide (checksum2 = digits.getD 11 0)
  else decide (checksum = digits.getD 11 0)

/-- `validate_bin` (src/core/services.py lines 1-38).  `none` is Python
`None` (line 14 returns `False`); then the input is stripped (line 17),
rejected unless it is 12 characters all satisfying `str.isdigit`
(line 19), converted to digit values by `int(ch)` (line 22, which can
raise `ValueError`), and checked by the checksum rule (lines 24-38). -/
def validate_bin (bin_number : Option String) : Except PyError Bool :=
  match bin_number with
  | none => .ok false
  | some s =>
    let normalized := pyStrip s.data
    if normalized.length == 12 && normalized.all pyIsDigit then do
      let digits ← normalized.mapM (fun ch =>
        match pyDecimalDigit ch with
        | some d => Except.ok d
        | none => Except.error PyError.valueError)
      pure (validateDigits digits)
    else .ok false

/-- An ASCII decimal digit `'0'..'9'` (what the spec means by "ASCII
decimal digit"). -/
def isAsciiDigit (c : Char) : Bool :=
  decide (48 ≤ c.toNat ∧ c.toNat ≤ 57)

/-- Modelled from the spec's words for claim C1 (spec §4.1 steps 2-3):
the checksum derived from the first 11 digits — `primary = Σ d[i]*w1[i]`
for `i` in `0..10`, reduced mod 11; on 10 recompute with the secondary
weights; `none` when that is again 10 (invalid BIN). -/
def specDerivedChecksum (d : List Nat) : Option Nat :=
  let primary := ∑ i ∈ Finset.range 11, d.getD i 0 * primaryWeights.getD i 0
  let c := primary % 11
  if c = 10 then
    let secondary := ∑ i ∈ Finset.range 11, d.getD i 0 * secondaryWeights.getD i 0
    let c2 := secondary % 11
    if c2 = 10 then none else some c2
  else some c

/-- The document type tags of `BusinessDocument.DOCUMENT_TYPES`
(src/core/models.py lines 86-92). -/
def documentTypeTags : List String :=
  ["invoice", "act", "waybill", "tax_invoice", "tax_report"]

/-- Python `document_type.upper()[:3]` (src/core/services.py line 59):
uppercase the tag and keep its first three characters.  The tags are
ASCII, where `Char.toUpper` agrees with Python `str.upper`. -/
def upper3 (s : String) : String :=
  String.mk ((s.data.map Char.toUpper).take 3)

/-- Python `f"{n:0Wd}"`: the decimal digits of `n`, left-padded with
zeros to a minimum width `w`. -/
def padZero (w : Nat) (n : Nat) : String :=
  String.mk (List.replicate (w - (Nat.repr n).length) '0' ++ (Nat.repr n).data)

/-- `generate_document_number` (src/core/services.py lines 41-59) as the
pure function of its collaborators' answers: `year` and `month` come
from `datetime.now()` (lines 46-48) and `count` is the stored count of
documents for this type, seller company and month (lines 51-56).  The
result is the f-string of line 59:
`f"{document_type.upper()[:3]}-{year}-{month:02d}-{(count + 1):04d}"` —
the year unpadded, the month padded to width 2, the sequence padded to
width 4.  `company_id` only scopes the count query; it does not appear
in the result. -/
def generate_document_number (document_type : String) (company_id : Nat)
    (year month count : Nat) : String :=
  upper3 document_type ++ "-" ++ Nat.repr year ++ "-" ++ padZero 2 month ++ "-"
    ++ padZero 4 (count + 1)

/-- Round an exact rational to an integer, ties to even (the rounding
mode of Python's `round` on the exact value). -/
def roundHalfEven (q : ℚ) : ℤ :=
  let n := ⌊q⌋
  if q - n < 1 / 2 then n
  else if 1 / 2 < q - n then n + 1
  else if n % 2 = 0 then n else n + 1

/-- Python `round(x, 2)` on money: round-half-to-even at two decimal
places, on the idealised exact value. -/
def pyRound2 (q : ℚ) : ℚ :=
  (roundHalfEven (100 * q) : ℚ) / 100

/-- `calculate_vat_amount` (src/core/services.py lines 62-66): the VAT
amount is `subtotal * (vat_rate / 100)`; the total is the subtotal plus
the still-unrounded VAT amount; both are rounded to 2 decimals only on
return.  The default rate is 12.0 (Kazakhstan VAT). -/
def calculate_vat_amount (subtotal : ℚ) (vat_rate : ℚ := 12) : ℚ × ℚ :=
  let vat_amount := subtotal * (vat_rate / 100)
  let total_amount := subtotal + vat_amount
  (pyRound2 vat_amount, pyRound2 total_amount)

/-- The VAT computation as claim C2 words it: the total is
`round(subtotal + vat_amount, 2)` where the `vat_amount` added in is the
already-rounded first component. -/
def computeVatClaim (subtotal : ℚ) (rate_percent : ℚ) : ℚ × ℚ :=
  let vat_amount := pyRound2 (subtotal * rate_percent / 100)
  (vat_amount, pyRound2 (subtotal + vat_amount))

/-- A `Company` row (src/core/models.py): only the fields the assembly
reads. -/
structure Company where
  id : Nat
  name : String
deriving DecidableEq

/-- An `Item` row (src/core/models.py): only the fields the assembly
reads. -/
structure Item where
  title : String
  price : ℚ
deriving DecidableEq

/-- A `CartItem` row (src/core/models.py lines 60-63). -/
structure CartItem where
  item : Item
  quantity : Nat
deriving DecidableEq

/-- An `OrderRequest` row (src/core/models.py lines 66-70) together with
its cart's item rows (`order.cart.cartitem_set.all()`). -/
structure OrderRequest where
  id : Nat
  total_amount : ℚ
  cartItems : List CartItem
deriving DecidableEq

/-- A `DocumentItem` row as created by the assembly
(src/core/services.py lines 196-202). -/
structure DocumentItem where
  item : Item
  quantity : Nat
  unit_price : ℚ
  total_price : ℚ
deriving DecidableEq

/-- A `BusinessDocument` row as created by the assembly
(src/core/services.py lines 183-192), with its created items. -/
structure BusinessDocument where
  document_type : String
  order_id : Nat
  company_seller : Company
  company_buyer : Company
  document_number : String
  subtotal : ℚ
  vat_amount : ℚ
  total_amount : ℚ
  items : List DocumentItem
deriving DecidableEq

/-- `create_business_document_from_order` (src/core/services.py lines
166-205) as the pure function of its collaborators' answers:
`companies` is the stored `Company` table in its default order
(`Company.objects.first()` is its head), and `year`, `month`, `count`
are the clock and count-query answers consumed by
`generate_document_number`.  Both the seller and the buyer are set to
`Company.objects.first()` (lines 172-173); the subtotal is the order's
`total_amount` as given (line 179); the VAT pair comes from
`calculate_vat_amount` at its default rate (line 180); each document
item copies the cart item with `unit_price = item.price` and
`total_price = item.price * quantity` (lines 195-202).  `none` models
the `AttributeError` Python raises at line 176 when the company table is
empty (`first()` returns `None`). -/
def create_business_document_from_order (companies : List Company)
    (year month count : Nat) (order : OrderRequest)
    (document_type : String := "invoice") : Option BusinessDocument :=
  match companies.head? with
  | none => none
  | some first =>
    let seller_company := first
    let buyer_company := first
    let document_number :=
      generate_document_number document_type seller_company.id year month count
    let subtotal := order.total_amount
    let vt := calculate_vat_amount subtotal
    some
      { document_type := document_type
        order_id := order.id
        company_seller := seller_company
        company_buyer := buyer_company
        document_number := document_number
        subtotal := subtotal
        vat_amount := vt.1
        total_amount := vt.2
        items := order.cartItems.map (fun cart_item =>
          { item := cart_item.item
            quantity := cart_item.quantity
            unit_price := cart_item.item.price
            total_price := cart_item.item.price * (cart_item.quantity : ℚ) }) }

/-- Concrete company table for the C8 witness. -/
def c8Companies : List Company := [⟨1, "Acme"⟩]

/-- Concrete order for the C8 witness.  Its stored total (100) is
deliberately different from the sum of its line totals (10), to show the
assembly takes the order total as given. -/
def c8Order : OrderRequest :=
  { id := 7, total_amount := 100, cartItems := [{ item := { title := "widget", price := 5 }, quantity := 2 }] }

/-- The document the assembly creates from `c8Order` with the `c8Companies`
table, at year 2024, month 12, count 0. -/
def c8Doc : BusinessDocument :=
  { document_type := "invoice", order_id := 7
    company_seller := ⟨1, "Acme"⟩, company_buyer := ⟨1, "Acme"⟩
    document_number := "INV-2024-12-0001"
    subtotal := 100, vat_amount := 12, total_amount := 112
    items := [{ item := { title := "widget", price := 5 }, quantity := 2,
                unit_price := 5, total_price := 10 }] }

/-- Concrete two-company table for the C10 witness. -/
def c10Companies : List Company := [⟨1, "Acme"⟩, ⟨2, "Globex"⟩]

/-- Concrete order for the C10 witness. -/
def c10Order : OrderRequest := { id := 8, total_amount := 50, cartItems := [] }

/-- The document the assembly creates from `c10Order` with the
`c10Companies` table, at year 2025, month 1, count 2. -/
def c10Doc : BusinessDocument :=
  { document_type := "act", order_id := 8
    company_seller := ⟨1, "Acme"⟩, company_buyer := ⟨1, "Acme"⟩
    document_number := "ACT-2025-01-0003"
    subtotal := 50, vat_amount := 6, total_amount := 56, items := [] }

/-! ## Helper lemmas -/

lemma roundHalfEven_eq (q : ℚ) (n : ℤ) (h1 : (n : ℚ) ≤ q) (h2 : q < (n : ℚ) + 1 / 2) :
    roundHalfEven q = n := by
  have hf : ⌊q⌋ = n := by
    rw [Int.floor_eq_iff]
    refine ⟨h1, ?_⟩
    linarith
  simp only [roundHalfEven, hf]
  rw [if_pos (by linarith)]

lemma roundHalfEven_eq_succ (q : ℚ) (n : ℤ) (h1 : (n : ℚ) + 1 / 2 < q)
    (h2 : q < (n : ℚ) + 1) :
    roundHalfEven q = n + 1 := by
  have hf : ⌊q⌋ = n := by
    rw [Int.floor_eq_iff]
    constructor
    · linarith
    · linarith
  simp only [roundHalfEven, hf]
  rw [if_neg (by linarith), if_pos (by linarith)]

lemma pyRound2_eq (q : ℚ) (n : ℤ) (h1 : (n : ℚ) ≤ 100 * q)
    (h2 : 100 * q < (n : ℚ) + 1 / 2) :
    pyRound2 q = (n : ℚ) / 100 := by
  unfold pyRound2
  rw [roundHalfEven_eq _ _ h1 h2]

lemma pyRound2_eq_succ (q : ℚ) (n : ℤ) (h1 : (n : ℚ) + 1 / 2 < 100 * q)
    (h2 : 100 * q < (n : ℚ) + 1) :
    pyRound2 q = ((n : ℚ) + 1) / 100 := by
  unfold pyRound2
  rw [roundHalfEven_eq_succ _ _ h1 h2]
  push_cast
  ring

lemma calc_vat_100 : calculate_vat_amount 100 12 = (12, 112) := by
  show (pyRound2 ((100 : ℚ) * (12 / 100)), pyRound2 ((100 : ℚ) + 100 * (12 / 100))) = (12, 112)
  rw [pyRound2_eq _ 1200 (by norm_num) (by norm_num),
    pyRound2_eq _ 11200 (by norm_num) (by norm_num)]
  norm_num

lemma calc_vat_0 : calculate_vat_amount 0 12 = (0, 0) := by
  show (pyRound2 ((0 : ℚ) * (12 / 100)), pyRound2 ((0 : ℚ) + 0 * (12 / 100))) = (0, 0)
  rw [pyRound2_eq _ 0 (by norm_num) (by norm_num),
    pyRound2_eq _ 0 (by norm_num) (by norm_num)]
  norm_num

lemma calc_vat_50 : calculate_vat_amount 50 12 = (6, 56) := by
  show (pyRound2 ((50 : ℚ) * (12 / 100)), pyRound2 ((50 : ℚ) + 50 * (12 / 100))) = (6, 56)
  rw [pyRound2_eq _ 600 (by norm_num) (by norm_num),
    pyRound2_eq _ 5600 (by norm_num) (by norm_num)]
  norm_num

lemma sum_zipWith_mul_getD (d ws : List Nat) :
    (List.zipWith (fun a b => a * b) d ws).sum
      = ∑ i ∈ Finset.range ws.length, d.getD i 0 * ws.getD i 0 := by
  induction ws generalizing d with
  | nil => simp
  | cons w ws ih =>
    cases d with
    | nil => simp
    | cons a d =>
      rw [List.zipWith_cons_cons, List.sum_cons, List.length_cons,
        Finset.sum_range_succ', ih d]
      simp only [List.getD_cons_succ, List.getD_cons_zero]
      ring

lemma getD_take_eq (l : List Nat) (n i : Nat) (h : i < n) :
    (l.take n).getD i 0 = l.getD i 0 := by
  simp [List.getD_eq_getElem?_getD, List.getElem?_take_of_lt h]

lemma weightedSum_take_primary (d : List Nat) :
    weightedSum (d.take 11) primaryWeights
      = ∑ i ∈ Finset.range 11, d.getD i 0 * primaryWeights.getD i 0 := by
  have hl : primaryWeights.length = 11 := rfl
  rw [weightedSum, sum_zipWith_mul_getD, hl]
  exact Finset.sum_congr rfl fun i hi => by
    rw [getD_take_eq _ _ _ (Finset.mem_range.mp hi)]

lemma weightedSum_take_secondary (d : List Nat) :
    weightedSum (d.take 11) secondaryWeights
      = ∑ i ∈ Finset.range 11, d.getD i 0 * secondaryWeights.getD i 0 := by
  have hl : secondaryWeights.length = 11 := rfl
  rw [weightedSum, sum_zipWith_mul_getD, hl]
  exact Finset.sum_congr rfl fun i hi => by
    rw [getD_take_eq _ _ _ (Finset.mem_range.mp hi)]

/-! ## Claims -/

/-- C1: for every 12-digit string `d[0..11]`, `validate_bin` accepts it
exactly when the checksum derived by the spec's rule (primary weights;
on 10, the secondary weights; invalid when that is again 10) equals the
control digit `d[11]`. -/
theorem C1_validate_matches_derived_checksum (d : List Nat) (h12 : d.length = 12)
    (hdig : ∀ x ∈ d, x < 10) :
    validateDigits d = true ↔ specDerivedChecksum d = some (d.getD 11 0) := by
  have hp := weightedSum_take_primary d
  have hs := weightedSum_take_secondary d
  simp only [validateDigits, specDerivedChecksum, hp, hs]
  by_cases h10 : (∑ i ∈ Finset.range 11, d.getD i 0 * primaryWeights.getD i 0) % 11 = 10
  · rw [if_pos h10, if_pos h10]
    by_cases h10b :
        (∑ i ∈ Finset.range 11, d.getD i 0 * secondaryWeights.getD i 0) % 11 = 10
    · rw [if_pos h10b, if_pos h10b]
      simp
    · rw [if_neg h10b, if_neg h10b]
      simp
  · rw [if_neg h10, if_neg h10]
    simp

/-- C1 witness: the digits of "940140000385" derive checksum 5, which is
the control digit, and `validate_bin` accepts the string. -/
theorem C1_witness :
    validateDigits [9, 4, 0, 1, 4, 0, 0, 0, 0, 3, 8, 5] = true
      ∧ specDerivedChecksum [9, 4, 0, 1, 4, 0, 0, 0, 0, 3, 8, 5] = some 5
      ∧ validate_bin (some "940140000385") = .ok true :=
  ⟨(C1_validate_matches_derived_checksum [9, 4, 0, 1, 4, 0, 0, 0, 0, 3, 8, 5]
      rfl (by decide)).mpr (by decide), by decide, rfl⟩

/-- C4: for a 12-digit input whose first 11 digits give primary checksum
10 and secondary checksum 10 as well, `validate_bin` rejects, whatever
the 12th digit is. -/
theorem C4_double_ten_rejected (d : List Nat) (h12 : d.length = 12)
    (hp : weightedSum (d.take 11) primaryWeights % 11 = 10)
    (hs : weightedSum (d.take 11) secondaryWeights % 11 = 10) :
    validateDigits d = false := by
  simp [validateDigits, hp, hs]

/-- C4 witness: the leading digits 52400000000 give primary sum 21 and
secondary sum 43, both ≡ 10 (mod 11); the resulting BIN is rejected with
control digit 7 (and as a string). -/
theorem C4_witness :
    validateDigits [5, 2, 4, 0, 0, 0, 0, 0, 0, 0, 0, 7] = false
      ∧ validate_bin (some "524000000007") = .ok false :=
  ⟨C4_double_ten_rejected [5, 2, 4, 0, 0, 0, 0, 0, 0, 0, 0, 7]
      rfl (by decide) (by decide), rfl⟩

/-- C5 counterexample: a string of 12 Arabic-Indic digits (U+0660).
Every character fails the ASCII-digit test the claim requires to force
rejection, yet `validate_bin` accepts the string: Python `str.isdigit`
accepts any Unicode decimal digit and `int` converts it, so the claim
"false whenever some character is not an ASCII decimal digit" is wrong
on the code. -/
theorem C5_counterexample :
    validate_bin (some "٠٠٠٠٠٠٠٠٠٠٠٠") = .ok true
      ∧ "٠٠٠٠٠٠٠٠٠٠٠٠".data.all isAsciiDigit = false
      ∧ (pyStrip "٠٠٠٠٠٠٠٠٠٠٠٠".data).length = 12 :=
  ⟨rfl, rfl, rfl⟩

/-- C5 amended: `validate_bin` trims surrounding whitespace and returns
false whenever the trimmed value does not have exactly 12 characters or
contains a character rejected by Python's `str.isdigit` — the digits may
be any Unicode digits, not only ASCII ones. -/
theorem C5_amended_reject_non_digits (s : String)
    (h : (pyStrip s.data).length ≠ 12 ∨ (pyStrip s.data).all pyIsDigit = false) :
    validate_bin (some s) = .ok false := by
  have hb : ((pyStrip s.data).length == 12 && (pyStrip s.data).all pyIsDigit) = false := by
    rcases h with h | h
    · have : ((pyStrip s.data).length == 12) = false := by
        simp [beq_eq_false_iff_ne, h]
      rw [this, Bool.false_and]
    · rw [h, Bool.and_false]
  simp [validate_bin, hb]

/-- C5 amended witness: a 3-character string is rejected. -/
theorem C5_witness : validate_bin (some "123") = .ok false :=
  C5_amended_reject_non_digits "123" (Or.inl (by decide))

/-- C7: the BIN validator is not exception-free.  The 12 superscript-two
characters U+00B2 pass the `str.isdigit` guard of line 19 (Unicode
numeric type Digit), but `int(ch)` at line 22 only accepts decimal
digits and raises `ValueError`, so `validate_bin("²²²²²²²²²²²²")` raises
instead of returning false. -/
theorem C7_superscript_digits_raise :
    validate_bin (some "²²²²²²²²²²²²") = .error PyError.valueError
      ∧ "²²²²²²²²²²²²".data.all pyIsDigit = true
      ∧ "²²²²²²²²²²²²".data.length = 12 :=
  ⟨rfl, rfl, rfl⟩

/-- C2 counterexample: at subtotal 0.103 and rate 12 the code returns
(0.01, 0.12) — the total is `round(subtotal + unrounded vat, 2)` =
`round(0.11536, 2)` — while the claim's formula, which adds the
already-rounded VAT into the total, gives `round(0.113, 2)` = 0.11. -/
theorem C2_counterexample :
    calculate_vat_amount (103 / 1000) 12 = (1 / 100, 3 / 25)
      ∧ computeVatClaim (103 / 1000) 12 = (1 / 100, 11 / 100)
      ∧ calculate_vat_amount (103 / 1000) 12 ≠ computeVatClaim (103 / 1000) 12 := by
  have e1 : calculate_vat_amount (103 / 1000) 12 = (1 / 100, 3 / 25) := by
    show (pyRound2 ((103 / 1000 : ℚ) * (12 / 100)),
        pyRound2 ((103 / 1000 : ℚ) + 103 / 1000 * (12 / 100))) = (1 / 100, 3 / 25)
    rw [pyRound2_eq _ 1 (by norm_num) (by norm_num),
      pyRound2_eq_succ _ 11 (by norm_num) (by norm_num)]
    norm_num
  have e2 : computeVatClaim (103 / 1000) 12 = (1 / 100, 11 / 100) := by
    show (pyRound2 ((103 / 1000 : ℚ) * 12 / 100),
        pyRound2 ((103 / 1000 : ℚ) + pyRound2 ((103 / 1000 : ℚ) * 12 / 100)))
      = (1 / 100, 11 / 100)
    rw [pyRound2_eq ((103 / 1000 : ℚ) * 12 / 100) 1 (by norm_num) (by norm_num)]
    rw [pyRound2_eq _ 11 (by norm_num) (by norm_num)]
    norm_num
  refine ⟨e1, e2, ?_⟩
  rw [e1, e2]
  intro h
  have h2 := congrArg Prod.snd h
  norm_num at h2

/-- C2 amended: `calculate_vat_amount` returns
`(round(subtotal * rate / 100, 2), round(subtotal + vat, 2))` where the
VAT added into the total is the exact, *unrounded* product; the claim's
concrete examples (100, 12) ↦ (12.00, 112.00) and (0, 12) ↦ (0, 0)
hold. -/
theorem C2_amended_vat_formula :
    (∀ s r : ℚ, calculate_vat_amount s r
        = (pyRound2 (s * (r / 100)), pyRound2 (s + s * (r / 100))))
      ∧ calculate_vat_amount 100 12 = (12, 112)
      ∧ calculate_vat_amount 0 12 = (0, 0) :=
  ⟨fun _ _ => rfl, calc_vat_100, calc_vat_0⟩

lemma length_padZero (w n : Nat) (h : (Nat.repr n).length ≤ w) :
    (padZero w n).length = w := by
  show (List.replicate (w - (Nat.repr n).length) '0' ++ (Nat.repr n).data).length = w
  rw [List.length_append, List.length_replicate]
  have : (Nat.repr n).data.length = (Nat.repr n).length := rfl
  omega

lemma padZero_of_length_eq (w n : Nat) (h : (Nat.repr n).length = w) :
    padZero w n = Nat.repr n := by
  unfold padZero
  rw [h, Nat.sub_self, List.replicate_zero, List.nil_append]

/-- C3 counterexample: the claim's "4-digit zero-padded sequence" and
"4-digit year" are only minimum widths in the code.  With count 9999 the
sequence becomes the 5-digit `10000`, and with year 500 the year is
printed with 3 digits (Python pads the month and the sequence but not
the year). -/
theorem C3_counterexample :
    generate_document_number "invoice" 1 2024 12 9999 = "INV-2024-12-10000"
      ∧ generate_document_number "invoice" 1 500 12 0 = "INV-500-12-0001" :=
  ⟨rfl, rfl⟩

/-- C3 amended: for every document type in the enumerated set, company
id, year, month and count, the generated number is the first 3 uppercase
letters of the tag, dash, the year's decimal digits, dash, the month
zero-padded to width 2, dash, the sequence `count + 1` zero-padded to
width 4 — with the widths exact (4-digit year, 2-digit month, 4-digit
sequence) provided the year has 4 decimal digits, the month at most 2
and `count + 1` at most 4; the claim's two examples hold. -/
theorem C3_amended_number_format (t : String) (ht : t ∈ documentTypeTags)
    (c y m k : Nat) (hy : (Nat.repr y).length = 4)
    (hm : (Nat.repr m).length ≤ 2) (hk : (Nat.repr (k + 1)).length ≤ 4) :
    generate_document_number t c y m k
        = upper3 t ++ "-" ++ padZero 4 y ++ "-" ++ padZero 2 m ++ "-" ++ padZero 4 (k + 1)
      ∧ (upper3 t).length = 3
      ∧ (padZero 4 y).length = 4
      ∧ (padZero 2 m).length = 2
      ∧ (padZero 4 (k + 1)).length = 4 := by
  refine ⟨?_, ?_, length_padZero 4 y (le_of_eq hy), length_padZero 2 m hm,
    length_padZero 4 _ hk⟩
  · rw [generate_document_number, padZero_of_length_eq 4 y hy]
  · simp only [documentTypeTags, List.mem_cons, List.mem_singleton,
      List.not_mem_nil, or_false] at ht
    rcases ht with rfl | rfl | rfl | rfl | rfl <;> rfl

/-- C3 witness: at ("invoice", 1, year 2024, month 12, count 0) the
format theorem applies, and both of the claim's examples evaluate as
stated. -/
theorem C3_witness :
    (generate_document_number "invoice" 1 2024 12 0
        = upper3 "invoice" ++ "-" ++ padZero 4 2024 ++ "-" ++ padZero 2 12 ++ "-"
            ++ padZero 4 1
      ∧ (upper3 "invoice").length = 3
      ∧ (padZero 4 2024).length = 4
      ∧ (padZero 2 12).length = 2
      ∧ (padZero 4 1).length = 4)
      ∧ generate_document_number "invoice" 1 2024 12 0 = "INV-2024-12-0001"
      ∧ generate_document_number "tax_invoice" 1 2025 1 41 = "TAX-2025-01-0042" :=
  ⟨C3_amended_number_format "invoice" (by decide) 1 2024 12 0 rfl (by decide) (by decide),
    rfl, rfl⟩

/-- C6 counterexample: "bogus" is outside the enumerated document type
set, yet the generator does not fail — it happily formats a number from
its first three letters.  The code performs no document-type validation
at all; the `InvalidDocumentType` failure of the claim does not exist. -/
theorem C6_counterexample :
    "bogus" ∉ documentTypeTags
      ∧ generate_document_number "bogus" 1 2024 12 0 = "BOG-2024-12-0001" :=
  ⟨by decide, rfl⟩

/-- C6 amended: the Document Number Generator never fails for any type
string whatsoever, inside or outside the enumerated set: it is a total
formatter that uppercases the first three characters of whatever tag it
receives. -/
theorem C6_amended_no_type_validation :
    ∀ (t : String) (c y m k : Nat),
      generate_document_number t c y m k
        = upper3 t ++ "-" ++ Nat.repr y ++ "-" ++ padZero 2 m ++ "-" ++ padZero 4 (k + 1) :=
  fun _ _ _ _ _ => rfl

/-- C9: the distinct document types "tax_invoice" and "tax_report" both
truncate to the prefix "TAX", so for every company id, year, month and
count the generator produces the identical document number for the two
types. -/
theorem C9_tax_types_collide :
    (∀ c y m k : Nat,
        generate_document_number "tax_invoice" c y m k
          = generate_document_number "tax_report" c y m k)
      ∧ upper3 "tax_invoice" = "TAX"
      ∧ upper3 "tax_report" = "TAX"
      ∧ "tax_invoice" ≠ "tax_report" :=
  ⟨fun _ _ _ _ => rfl, rfl, rfl, by decide⟩

/-- C8: whenever the assembly produces a document, its subtotal is the
order's stored total as given (not the sum of its line items), its VAT
amount and total come from the VAT calculator at the default rate 12.0,
and every created line item has `total_price = quantity * unit_price`
(with `unit_price` the item's price). -/
theorem C8_assembly_totals (companies : List Company) (y m k : Nat)
    (order : OrderRequest) (dt : String) (doc : BusinessDocument)
    (h : create_business_document_from_order companies y m k order dt = some doc) :
    doc.subtotal = order.total_amount
      ∧ (doc.vat_amount, doc.total_amount) = calculate_vat_amount order.total_amount 12
      ∧ doc.items = order.cartItems.map (fun ci =>
          ({ item := ci.item, quantity := ci.quantity, unit_price := ci.item.price,
             total_price := ci.item.price * (ci.quantity : ℚ) } : DocumentItem))
      ∧ ∀ it ∈ doc.items, it.total_price = (it.quantity : ℚ) * it.unit_price := by
  cases companies with
  | nil => simp [create_business_document_from_order] at h
  | cons c cs =>
    simp only [create_business_document_from_order, List.head?_cons,
      Option.some.injEq] at h
    subst h
    refine ⟨rfl, rfl, rfl, fun it hit => ?_⟩
    rcases List.mem_map.mp hit with ⟨ci, _, rfl⟩
    exact mul_comm _ _

/-- C8 witness: a one-company table and an order whose stored total
(100) differs from its line-item sum (10): the document's subtotal is
the stored 100, the VAT pair is (12, 112) at the default rate, and the
single line item totals quantity × unit price. -/
theorem C8_witness :
    c8Doc.subtotal = c8Order.total_amount
      ∧ (c8Doc.vat_amount, c8Doc.total_amount) = calculate_vat_amount c8Order.total_amount 12
      ∧ (∀ it ∈ c8Doc.items, it.total_price = (it.quantity : ℚ) * it.unit_price)
      ∧ c8Doc.subtotal ≠ ((c8Doc.items.map fun it => it.total_price).sum) := by
  have h : create_business_document_from_order c8Companies 2024 12 0 c8Order "invoice"
      = some c8Doc := by
    have hnum : generate_document_number "invoice" 1 2024 12 0 = "INV-2024-12-0001" := rfl
    simp only [create_business_document_from_order, c8Companies, c8Order,
      List.head?_cons, calc_vat_100, List.map_cons, List.map_nil, hnum, c8Doc]
    norm_num
  obtain ⟨h1, h2, _, h4⟩ :=
    C8_assembly_totals c8Companies 2024 12 0 c8Order "invoice" c8Doc h
  refine ⟨h1, h2, h4, ?_⟩
  show (100 : ℚ) ≠ (10 : ℚ) + 0
  norm_num

/-- C10: whenever the assembly produces a document, both its seller and
its buyer are the first stored company (`Company.objects.first()`),
independently of the order and of the requested document type. -/
theorem C10_seller_is_buyer (companies : List Company) (y m k : Nat)
    (order : OrderRequest) (dt : String) (doc : BusinessDocument)
    (h : create_business_document_from_order companies y m k order dt = some doc) :
    companies.head? = some doc.company_seller
      ∧ doc.company_buyer = doc.company_seller := by
  cases companies with
  | nil => simp [create_business_document_from_order] at h
  | cons c cs =>
    simp only [create_business_document_from_order, List.head?_cons,
      Option.some.injEq] at h
    subst h
    exact ⟨rfl, rfl⟩

/-- C10 witness: with two distinct stored companies, the created "act"
document names the first one, Acme, as both seller and buyer; Globex,
though present, is never chosen. -/
theorem C10_witness :
    c10Companies.head? = some c10Doc.company_seller
      ∧ c10Doc.company_buyer = c10Doc.company_seller
      ∧ c10Doc.company_seller = ⟨1, "Acme"⟩
      ∧ c10Doc.company_seller ≠ ⟨2, "Globex"⟩ := by
  have h : create_business_document_from_order c10Companies 2025 1 2 c10Order "act"
      = some c10Doc := by
    have hnum : generate_document_number "act" 1 2025 1 2 = "ACT-2025-01-0003" := rfl
    simp only [create_business_document_from_order, c10Companies, c10Order,
      List.head?_cons, calc_vat_50, List.map_nil, hnum, c10Doc]
  obtain ⟨h1, h2⟩ := C10_seller_is_buyer c10Companies 2025 1 2 c10Order "act" c10Doc h
  exact ⟨h1, h2, rfl, by decide⟩
